import Mathlib

/-!
Verification development for the unified company crawler
(`scripts/crawler_empresas.py`): a shallow embedding in Lean 4 of the
URL classifier, dedup filter, document downloader, ZIP expander,
filename sanitizer and path-tag derivation, together with theorems
settling the specification claims about them.

Strings are modelled as `List Char` internally (Python `str` is a
character sequence); top-level functions take and return `String`.
Python regular-expression operations used by the source are unfolded
into explicit scanning functions, each annotated with the regex it
implements.  `\d`, `str.lower` and character classes are modelled over
ASCII, which is the alphabet of every URL constant in the source.
-/

namespace Crawler

/-! ## Generic character-list helpers -/

/-- `beginsWith pat l`: `pat` is a prefix of `l` (Python `str.startswith`). -/
def beginsWith : List Char → List Char → Bool
  | [], _ => true
  | _ :: _, [] => false
  | p :: ps, c :: cs => p = c && beginsWith ps cs

/-- `finishesWith l pat`: `pat` is a suffix of `l` (Python `str.endswith`). -/
def finishesWith (l pat : List Char) : Bool :=
  beginsWith pat.reverse l.reverse

/-- `occursIn pat l`: `pat` occurs as a contiguous substring of `l`
(Python `pat in l`). -/
def occursIn (pat : List Char) : List Char → Bool
  | [] => pat.isEmpty
  | c :: cs => beginsWith pat (c :: cs) || occursIn pat cs

/-- Split at the first occurrence of `sep`, if any. -/
def splitFirst (sep : Char) : List Char → Option (List Char × List Char)
  | [] => none
  | c :: cs =>
    if c = sep then some ([], cs)
    else
      match splitFirst sep cs with
      | some (a, b) => some (c :: a, b)
      | none => none

/-- ASCII lowercasing of a character list (Python `str.lower` restricted
to ASCII, which covers every constant compared against in the source). -/
def toLowerL (l : List Char) : List Char := l.map Char.toLower

/-- The part of a path after its last `/` (Python `os.path.basename`). -/
def basenameL (l : List Char) : List Char :=
  (l.reverse.takeWhile (fun c => c != '/')).reverse

/-- Python `str.split(sep)[0]`: characters before the first occurrence. -/
def beforeFirst (sep : Char) (l : List Char) : List Char :=
  l.takeWhile (fun c => c != sep)

/-! ## Model of `urllib.parse.urlparse`

Only the `path` and `query` components are consumed by the source, but
the splitting order (scheme, netloc, fragment, query, params) follows
CPython's `urlsplit`/`urlparse`. -/

/-- Characters CPython strips from a URL before splitting. -/
def isUnsafeUrlChar (c : Char) : Bool := c = '\t' || c = '\r' || c = '\n'

/-- Characters allowed in a URL scheme (`scheme_chars` in CPython). -/
def isSchemeChar (c : Char) : Bool :=
  c.isAlpha || c.isDigit || c = '+' || c = '-' || c = '.'

/-- One component record of a parsed URL. -/
structure UrlParts where
  scheme : List Char
  netloc : List Char
  path : List Char
  query : List Char
  fragment : List Char
  deriving Repr, DecidableEq

/-- CPython `_splitparams`: drop `;params` from the last path segment. -/
def dropParams (p : List Char) : List Char :=
  if p.contains ';' then
    if p.contains '/' then
      let afterLastSlash := (p.reverse.takeWhile (fun c => c != '/')).reverse
      match splitFirst ';' afterLastSlash with
      | some (a, _) => p.take (p.length - afterLastSlash.length) ++ a
      | none => p
    else
      match splitFirst ';' p with
      | some (a, _) => a
      | none => p
  else p

/-- Model of `urllib.parse.urlparse` on a character list. -/
def urlparse (url : List Char) : UrlParts :=
  let u0 := url.filter (fun c => !(isUnsafeUrlChar c))
  let schemeRest : List Char × List Char :=
    match splitFirst ':' u0 with
    | some (before, after) =>
      if before ≠ [] ∧ before.all (fun c => isSchemeChar c) then
        (toLowerL before, after)
      else ([], u0)
    | none => ([], u0)
  let netRest : List Char × List Char :=
    match schemeRest.2 with
    | '/' :: '/' :: r =>
      (r.takeWhile (fun c => !(c = '/' || c = '?' || c = '#')),
       r.dropWhile (fun c => !(c = '/' || c = '?' || c = '#')))
    | r => ([], r)
  let fragSplit : List Char × List Char :=
    match splitFirst '#' netRest.2 with
    | some (a, b) => (a, b)
    | none => (netRest.2, [])
  let querySplit : List Char × List Char :=
    match splitFirst '?' fragSplit.1 with
    | some (a, b) => (a, b)
    | none => (fragSplit.1, [])
  { scheme := schemeRest.1
    netloc := netRest.1
    path := dropParams querySplit.1
    query := querySplit.2
    fragment := fragSplit.2 }

/-! ## Crawler configuration constants (`crawler_empresas.py`, top of file) -/

/-- `DOCUMENT_EXTENSIONS`. -/
def DOCUMENT_EXTENSIONS : List String :=
  [".pdf", ".docx", ".doc", ".xlsx", ".xls", ".pptx", ".ppt",
   ".csv", ".zip", ".rar", ".7z", ".gz", ".tar", ".bz2", ".xz",
   ".odt", ".ods", ".odp", ".txt", ".rtf", ".epub", ".mobi",
   ".pub", ".vsd", ".msg", ".xml", ".json", ".jpg", ".jpeg",
   ".png", ".gif", ".mp3", ".mp4", ".wav"]

/-- `DOCUMENT_PATH_PATTERNS`. -/
def DOCUMENT_PATH_PATTERNS : List String :=
  ["/storage/", "/download/", "/arquivos/", "/documentos/",
   "/files/", "/attachments/", "/anexos/"]

/-- Web-page extensions excluded by the directory-pattern branch of
`is_document_url` (line 449 of the source). -/
def WEB_PAGE_EXTENSIONS : List String :=
  [".html", ".htm", ".php", ".asp", ".aspx", ".jsp"]

/-- Path keywords of the final branch of `is_document_url`. -/
def DOCUMENT_KEYWORDS : List String :=
  ["download", "document", "file", "arquivo", "edital", "formulario", "anexo"]

/-! ## URL classifier -/

/-- First branch of `is_document_url`: the (lowered) path ends with a
known document extension. -/
def docExtHit (path : List Char) : Bool :=
  DOCUMENT_EXTENSIONS.any (fun ext => finishesWith path ext.data)

/-- Second branch: the path contains a document-directory substring. -/
def docPatternHit (path : List Char) : Bool :=
  DOCUMENT_PATH_PATTERNS.any (fun pat => occursIn pat.data path)

/-- The guard of the second branch: path ends with a web-page extension. -/
def webExtHit (path : List Char) : Bool :=
  WEB_PAGE_EXTENSIONS.any (fun ext => finishesWith path ext.data)

/-- Third branch: the (lowered) query contains a download-indicating key. -/
def queryKeyHit (query : List Char) : Bool :=
  occursIn "download=".data query || occursIn "file=".data query ||
  occursIn "attachment=".data query || occursIn "document=".data query ||
  occursIn "arquivo=".data query

/-- Fourth branch: the path contains a document-indicating keyword. -/
def keywordHit (path : List Char) : Bool :=
  DOCUMENT_KEYWORDS.any (fun k => occursIn k.data path)

/-- `is_document_url` (source lines 418-473): loose page/document
classifier.  Returns `true` for "document".  The source's
`except` handler cannot fire in the pure model. -/
def is_document_url (url : String) : Bool :=
  if url = "" then false
  else if !(beginsWith "http://".data url.data ||
            beginsWith "https://".data url.data) then false
  else
    let parsed := urlparse url.data
    let path := toLowerL parsed.path
    if docExtHit path then true
    else if docPatternHit path && !(webExtHit path) then true
    else
      let query := toLowerL parsed.query
      if queryKeyHit query then true
      else if keywordHit (toLowerL path) then true
      else false

/-- Directory patterns of the strict check (`doc_patterns`, line 500):
note `/docs/` and `/documents/` are not in `DOCUMENT_PATH_PATTERNS`. -/
def STRICT_DOC_PATTERNS : List String :=
  ["/download/", "/files/", "/docs/", "/documents/", "/documentos/",
   "/arquivos/", "/anexos/", "/storage/"]

/-- Query keys of the strict check (`doc_queries`, line 509): note
`doc=` and `filename=` are not among the loose check's keys. -/
def STRICT_DOC_QUERIES : List String :=
  ["download=", "file=", "doc=", "document=", "attachment=", "filename="]

/-- `is_definitely_document_url` (source lines 476-517): conservative
navigation gate.  It never checks the URL scheme. -/
def is_definitely_document_url (url : String) : Bool :=
  if url = "" then false
  else
    let parsed := urlparse url.data
    let path := toLowerL parsed.path
    if docExtHit path then true
    else if STRICT_DOC_PATTERNS.any (fun pat => occursIn pat.data path) &&
            DOCUMENT_EXTENSIONS.any
              (fun ext => occursIn (ext.data.drop 1) path) then true
    else
      let query := toLowerL parsed.query
      if STRICT_DOC_QUERIES.any (fun q => occursIn q.data query) then true
      else false

/-! ## `sanitize_filename` (source lines 268-287) -/

/-- Characters rejected by the filesystem-illegal class
`[\\/*?:"<>|]`. -/
def isIllegalChar (c : Char) : Bool :=
  c = '\\' || c = '/' || c = '*' || c = '?' || c = ':' ||
  c = '"' || c = '<' || c = '>' || c = '|'

/-- Models `re.sub(r'https?://(www\.)?', '', url)`: scan left to
right, removing every match; the optional `www.` group is matched
greedily, as the regex engine does. -/
def removeProtoWWW : List Char → List Char
  | 'h' :: 't' :: 't' :: 'p' :: 's' :: ':' :: '/' :: '/' :: 'w' :: 'w' :: 'w' :: '.' :: rest =>
    removeProtoWWW rest
  | 'h' :: 't' :: 't' :: 'p' :: 's' :: ':' :: '/' :: '/' :: rest => removeProtoWWW rest
  | 'h' :: 't' :: 't' :: 'p' :: ':' :: '/' :: '/' :: 'w' :: 'w' :: 'w' :: '.' :: rest =>
    removeProtoWWW rest
  | 'h' :: 't' :: 't' :: 'p' :: ':' :: '/' :: '/' :: rest => removeProtoWWW rest
  | c :: cs => c :: removeProtoWWW cs
  | [] => []

/-- `sanitize_filename`: strip protocol/www, replace illegal characters
with `_`, replace `/` and `.` with `_`, cap at 100 characters. -/
def sanitize_filename (url : String) : String :=
  let n1 := removeProtoWWW url.data
  let n2 := n1.map (fun c => if isIllegalChar c then '_' else c)
  let n3 := n2.map (fun c => if c = '/' then '_' else c)
  let n4 := n3.map (fun c => if c = '.' then '_' else c)
  String.mk (if n4.length > 100 then n4.take 100 else n4)

/-! ## `extract_path_tags` (source lines 339-376) -/

/-- After an `http://`/`https://` match: consume `[^/]+` up to and
including the next `/` (the tail of regex `https?://[^/]+/`). -/
def domDropTail : List Char → Option (List Char)
  | [] => none
  | '/' :: rest => some rest
  | _ :: rest => domDropTail rest

/-- Consume `[^/]+/` (at least one non-slash, then the slash). -/
def domDrop : List Char → Option (List Char)
  | [] => none
  | c :: rest => if c = '/' then none else domDropTail rest

/-- Models `re.sub(r'https?://[^/]+/', '', url)`: scan left to right,
removing each match.  A fuel argument (the input length bounds every
scan) keeps the recursion structural. -/
def removeProtoDomainAux : Nat → List Char → List Char
  | 0, l => l
  | _ + 1, [] => []
  | fuel + 1, c :: cs =>
    let attempt : Option (List Char) :=
      if beginsWith "http://".data (c :: cs) then domDrop ((c :: cs).drop 7)
      else if beginsWith "https://".data (c :: cs) then domDrop ((c :: cs).drop 8)
      else none
    match attempt with
    | some rem => removeProtoDomainAux fuel rem
    | none => c :: removeProtoDomainAux fuel cs

/-- Remove protocol and domain, as the first step of
`extract_path_tags` does. -/
def removeProtoDomain (l : List Char) : List Char :=
  removeProtoDomainAux l.length l

/-- Python `str.split('/')`. -/
def splitSlash : List Char → List (List Char)
  | [] => [[]]
  | c :: cs =>
    match splitSlash cs with
    | [] => [[c]]
    | a :: rest => if c = '/' then [] :: a :: rest else (c :: a) :: rest

/-- The character class of `.strip(',.-_')`. -/
def isStripChar (c : Char) : Bool := c = ',' || c = '.' || c = '-' || c = '_'

/-- Python `str.strip(',.-_')`: drop those characters from both ends. -/
def stripEdges (l : List Char) : List Char :=
  ((l.dropWhile isStripChar).reverse.dropWhile isStripChar).reverse

/-- `re.search(r'\d', part)` over ASCII digits. -/
def hasDigitL (l : List Char) : Bool := l.any (fun c => c.isDigit)

/-- One iteration of the tag-processing loop of `extract_path_tags`:
a digit-bearing segment is dropped when a digit-free tag already
exists, otherwise its digit-stripped remainder is kept when nonempty
(`re.sub(r'\d+', '', part).strip(',.-_')`); digit-free segments are
appended unchanged. -/
def tagStep (acc : List (List Char)) (part : List Char) : List (List Char) :=
  if hasDigitL part then
    if acc.filter (fun p => !(hasDigitL p)) ≠ [] then acc
    else
      if stripEdges (part.filter (fun c => !(c.isDigit))) = [] then acc
      else acc ++ [stripEdges (part.filter (fun c => !(c.isDigit)))]
  else acc ++ [part]

/-- `extract_path_tags`: strip protocol/domain, drop query/fragment
(`re.sub(r'[?#].*$', '', path)`, modelled for newline-free URLs),
split into nonempty segments, and fold the tag-processing loop. -/
def extract_path_tags (url : String) : List String :=
  let path := removeProtoDomain url.data
  let path2 := path.takeWhile (fun c => !(c = '?' || c = '#'))
  let parts := (splitSlash path2).filter (fun p => p ≠ [])
  (parts.foldl tagStep []).map (fun l => String.mk l)

/-! ## `os.path.splitext` and `get_file_type` (source lines 520-555) -/

/-- Split `base` at its last dot, when it has one. -/
def lastDotSplit (base : List Char) : Option (List Char × List Char) :=
  let extRev := base.reverse.takeWhile (fun c => c != '.')
  if extRev.length = base.length then none
  else some (base.take (base.length - extRev.length - 1),
             base.drop (base.length - extRev.length - 1))

/-- Model of `os.path.splitext`: the extension starts at the last dot
of the basename, unless every earlier basename character is a dot
(leading dots never begin an extension). -/
def splitextL (p : List Char) : List Char × List Char :=
  let base := basenameL p
  let dir := p.take (p.length - base.length)
  match lastDotSplit base with
  | none => (p, [])
  | some (stem, ext) =>
    if stem.any (fun c => c != '.') then (dir ++ stem, ext) else (p, [])

/-- `get_file_type`: extension-to-category table. -/
def get_file_type (filePath : String) : String :=
  let e := String.mk (splitextL (toLowerL filePath.data)).2
  if e = ".pdf" then "pdf"
  else if e = ".docx" ∨ e = ".doc" then "word"
  else if e = ".xlsx" ∨ e = ".xls" then "excel"
  else if e = ".pptx" ∨ e = ".ppt" then "powerpoint"
  else if e = ".csv" then "csv"
  else if e = ".zip" ∨ e = ".rar" ∨ e = ".7z" ∨ e = ".gz" ∨ e = ".tar" ∨
          e = ".bz2" ∨ e = ".xz" then "arquivo_compactado"
  else if e = ".jpg" ∨ e = ".jpeg" ∨ e = ".png" ∨ e = ".gif" ∨ e = ".bmp" ∨
          e = ".svg" then "imagem"
  else if e = ".mp4" ∨ e = ".avi" ∨ e = ".mov" ∨ e = ".wmv" ∨ e = ".flv" ∨
          e = ".webm" then "video"
  else if e = ".mp3" ∨ e = ".wav" ∨ e = ".ogg" ∨ e = ".flac" ∨ e = ".aac" then "audio"
  else if e = ".txt" then "texto"
  else if e = ".html" ∨ e = ".htm" then "html"
  else "documento"

/-! ## `should_process_url` (source lines 1245-1325)

The crawl filter installed on the page fetcher.  It closes over the
run's mutable `document_urls` list, so the model returns the
navigation decision together with the updated list.  The optional
`skip_browser` HEAD probe is abstracted by the oracle `headIsDoc`
(a probe exception behaves as `headIsDoc = false`). -/

/-- Quick path keywords checked by `should_process_url` (line 1273). -/
def QUICK_DOC_KEYWORDS : List String :=
  ["pdf", "doc", "docx", "xls", "xlsx", "ppt", "pptx", "zip"]

/-- The guarded append to `document_urls` used by every
document-detecting branch of `should_process_url`. -/
def addDocUrl (url : String) (forceUpdate : Bool)
    (existingUrls docUrls : List String) : List String :=
  if url ∉ docUrls ∧ (forceUpdate = true ∨ url ∉ existingUrls) then
    docUrls ++ [url]
  else docUrls

/-- The crawl filter itself. -/
def should_process_url (url : String) (forceUpdate : Bool)
    (existingUrls probableDocUrls docUrls : List String)
    (skipBrowser headIsDoc : Bool) : Bool × List String :=
  if url = "" then (false, docUrls)
  else if !(beginsWith "http://".data url.data ||
            beginsWith "https://".data url.data) then (false, docUrls)
  else if is_definitely_document_url url then
    (false, addDocUrl url forceUpdate existingUrls docUrls)
  else
    let path := toLowerL (urlparse url.data).path
    if docExtHit path then
      (false, addDocUrl url forceUpdate existingUrls docUrls)
    else if QUICK_DOC_KEYWORDS.any (fun k => occursIn k.data path) then
      (false, addDocUrl url forceUpdate existingUrls docUrls)
    else if skipBrowser && headIsDoc then
      (false, addDocUrl url forceUpdate existingUrls docUrls)
    else if url ∈ probableDocUrls ∨ is_document_url url = true then
      (false, addDocUrl url forceUpdate existingUrls docUrls)
    else if forceUpdate = false ∧ url ∈ existingUrls then (false, docUrls)
    else (true, docUrls)

/-! ## `download_document` (source lines 668-921)

Filesystem and network effects are abstracted into oracles:
`fileExists` answers the pre-download existence check, `net` gives
each attempt's HEAD status and GET outcome, and `mimeGuess` stands for
the platform `mimetypes` table.  The result additionally records how
many HEAD/GET requests were issued and every backoff sleep, so that
theorems can speak about network activity and retry pacing. -/

/-- `MAX_RETRIES` (source line 258). -/
def MAX_RETRIES : Nat := 3

/-- Outcome of streaming the response body to disk: either every chunk
was read (`complete`), or an exception interrupted the stream after
`size` bytes had been written (`failedAfter`).  A chunk-read timeout
after some bytes simply breaks the loop, which is `complete` with a
partial size. -/
inductive StreamOutcome where
  | complete (size : Nat)
  | failedAfter (size : Nat)
  deriving Repr, DecidableEq

/-- Headers and body behaviour of a 200 response. -/
structure GetOk where
  contentType : String
  contentDisposition : String
  stream : StreamOutcome
  deriving Repr, DecidableEq

/-- A GET outcome: a response with a status, or a raised
`ClientError`/timeout. -/
inductive GetResult where
  | resp (status : Nat) (payload : GetOk)
  | exn
  deriving Repr, DecidableEq

/-- The network's behaviour at one retry attempt: the final HEAD
status after redirects (`none` when the HEAD probe raised, which the
source catches and ignores) and the GET outcome. -/
structure Attempt where
  headStatus : Option Nat
  get : GetResult
  deriving Repr, DecidableEq

/-- Return value of `download_document`, extended with observable
effect counters. -/
structure DownloadResult where
  success : Bool
  path : String
  fileType : String
  headRequests : Nat
  getRequests : Nat
  sleeps : List Nat
  deriving Repr, DecidableEq

/-- Whitespace stripped by Python `str.strip()`. -/
def isPySpace (c : Char) : Bool :=
  c = ' ' || c = '\t' || c = '\n' || c = '\r' || c = '\x0b' || c = '\x0c'

/-- `Content-Type` normalisation: `.split(';')[0].strip().lower()`. -/
def normalizeContentType (ct : String) : List Char :=
  let s0 := beforeFirst ';' ct.data
  let s1 := (s0.dropWhile isPySpace).reverse.dropWhile isPySpace
  toLowerL s1.reverse

/-- Capture of `(.*?)` up to the first quote of either kind
(the regex class `["\']`); `.` does not match a newline, so a newline
kills the match attempt. -/
def cdCapture : List Char → Option (List Char)
  | [] => none
  | c :: cs =>
    if c = '"' ∨ c = '\'' then some []
    else if c = '\n' then none
    else (cdCapture cs).map (fun l => c :: l)

/-- First match of `re.findall('filename=["\x27](.*?)["\x27]', cd)`:
scan left to right for `filename=` followed by a quoted capture. -/
def firstCdFilename : List Char → Option (List Char)
  | [] => none
  | c :: cs =>
    let here : Option (List Char) :=
      if beginsWith "filename=".data (c :: cs) then
        match (c :: cs).drop 9 with
        | q :: rs => if q = '"' ∨ q = '\'' then cdCapture rs else none
        | [] => none
      else none
    match here with
    | some cap => some cap
    | none => firstCdFilename cs

/-- The `mime_map` table of `guess_file_extension` (lines 575-591). -/
def MIME_MAP : List (String × String) :=
  [("application/pdf", ".pdf"), ("application/msword", ".doc"),
   ("application/vnd.openxmlformats-officedocument.wordprocessingml.document", ".docx"),
   ("application/vnd.ms-excel", ".xls"),
   ("application/vnd.openxmlformats-officedocument.spreadsheetml.sheet", ".xlsx"),
   ("application/vnd.ms-powerpoint", ".ppt"),
   ("application/vnd.openxmlformats-officedocument.presentationml.presentation", ".pptx"),
   ("text/csv", ".csv"), ("application/zip", ".zip"),
   ("application/x-rar-compressed", ".rar"), ("application/x-7z-compressed", ".7z"),
   ("application/gzip", ".gz"), ("application/x-tar", ".tar"),
   ("application/x-bzip2", ".bz2"), ("application/x-xz", ".xz")]

/-- `guess_file_extension(content_type, url)` (lines 558-602):
URL extension first, then the `mime_map`, then the platform
`mimetypes` table (oracle), then `.bin`. -/
def guess_file_extension (mimeGuess : String → Option String)
    (contentType : List Char) (url : String) : List Char :=
  let ue := (splitextL (urlparse url.data).path).2
  if ue ≠ [] ∧ ue.length < 10 then ue
  else
    match MIME_MAP.find? (fun p => p.1.data = contentType) with
    | some p => p.2.data
    | none =>
      match mimeGuess (String.mk contentType) with
      | some e => if e ≠ "" then e.data else ".bin".data
      | none => ".bin".data

/-- `os.path.join` as used by the source (posixpath, two arguments). -/
def joinPath (d f : List Char) : List Char :=
  if beginsWith "/".data f then f
  else if d = [] ∨ finishesWith d "/".data then d ++ f
  else d ++ '/' :: f

/-- Python `str.replace(pat, rep)` for nonempty `pat`: replace all
non-overlapping occurrences, left to right, never rescanning `rep`;
fuel (the input length) keeps the scan structural. -/
def replaceAllAux (pat rep : List Char) : Nat → List Char → List Char
  | 0, l => l
  | _ + 1, [] => []
  | fuel + 1, c :: cs =>
    if beginsWith pat (c :: cs) then
      rep ++ replaceAllAux pat rep fuel ((c :: cs).drop pat.length)
    else c :: replaceAllAux pat rep fuel cs

/-- Entry point of the `str.replace` model. -/
def replaceAll (l pat rep : List Char) : List Char :=
  if pat = [] then l else replaceAllAux pat rep l.length l

/-- Lines 697-701: collapse doubled document extensions
(`.pdf.pdf` → `.pdf`).  The containment test is on the lowercased URL
while the replacement is case-sensitive, exactly as in the source;
each extension is checked in turn against the current URL. -/
def collapseDoubled (cu : List Char) : List Char :=
  DOCUMENT_EXTENSIONS.foldl
    (fun acc ext =>
      if occursIn (ext.data ++ ext.data) (toLowerL acc) then
        replaceAll acc (ext.data ++ ext.data) ext.data
      else acc)
    cu

/-- The URL-derived candidate filename (lines 683-718): the path's
basename when usable, else the sanitized cleaned URL plus a recovered
or placeholder extension; filesystem-illegal characters replaced
last. -/
def derivedFilename (url : String) : List Char :=
  let parsed := urlparse url.data
  let originalFilename := basenameL parsed.path
  let cleanUrl := collapseDoubled (beforeFirst '#' url.data)
  let f0 :=
    if originalFilename ≠ [] ∧ originalFilename.length < 100 ∧
       !(finishesWith originalFilename "/".data) then originalFilename
    else
      let oext := (splitextL parsed.path).2
      (sanitize_filename (String.mk cleanUrl)).data ++
        (if oext ≠ [] ∧ oext.length < 10 then oext else ".bin".data)
  f0.map (fun c => if isIllegalChar c then '_' else c)

/-- The local target path derived from the URL (line 720). -/
def derivedLocalPath (url docsDir : String) : String :=
  String.mk (joinPath docsDir.data (derivedFilename url))

/-- `os.path.splitext(filename)[1].lstrip('.')`, defaulting to
`documento` (lines 724-726). -/
def extTypeOf (filename : List Char) : String :=
  let fe := (splitextL filename).2.dropWhile (fun c => c = '.')
  if fe = [] then "documento" else String.mk fe

/-- File-type resolution on the success path (lines 874-893). -/
def derivedFileType (filename ct : List Char) : String :=
  let fe := (splitextL filename).2.dropWhile (fun c => c = '.')
  if fe = [] then
    if occursIn "pdf".data ct then "pdf"
    else if occursIn "excel".data ct || occursIn "spreadsheet".data ct then "excel"
    else if occursIn "word".data ct then "word"
    else if occursIn "csv".data ct then "csv"
    else if occursIn "powerpoint".data ct || occursIn "presentation".data ct then
      "powerpoint"
    else if occursIn "zip".data ct || occursIn "compressed".data ct then
      "arquivo_compactado"
    else "documento"
  else String.mk fe

/-- Continuation signal produced by handling one GET outcome:
finish with a result; sleep `d` then retry (the non-200 branch, which
sleeps even on the final attempt); or the guarded retry of the
chunk-failure and empty-file branches, which sleeps and continues only
when attempts remain and otherwise fails at once. -/
inductive StepOut where
  | done (success : Bool) (path fileType : String)
  | retrySleep (d : Nat) (filename localPath : List Char)
  | retryGuarded (d : Nat) (filename localPath : List Char)
  deriving Repr, DecidableEq

/-- Content-Disposition filename adoption (lines 784-795). -/
def applyContentDisposition (docsDir filename localPath : List Char)
    (cd : String) : List Char × List Char :=
  if occursIn "filename=".data cd.data then
    match firstCdFilename cd.data with
    | some cap =>
      if cap ≠ [] ∧ cap.length < 100 then (cap, joinPath docsDir cap)
      else (filename, localPath)
    | none => (filename, localPath)
  else (filename, localPath)

/-- Placeholder-extension resolution from the content type
(lines 797-802). -/
def applyExtensionFix (mimeGuess : String → Option String) (docsDir : List Char)
    (url : String) (ct : List Char) (filename localPath : List Char) :
    List Char × List Char :=
  if finishesWith filename ".bin".data ∨ !(filename.contains '.') then
    let ext := guess_file_extension mimeGuess ct url
    if ext ≠ [] then
      let f2 := (splitextL filename).1 ++ ext
      (f2, joinPath docsDir f2)
    else (filename, localPath)
  else (filename, localPath)

/-- Handling of one GET outcome inside the retry loop
(lines 762-895): non-200 statuses split into the immediate 404 abort
and the retry-with-backoff path; a 200 response is screened for
text/html, may rename the file, streams, and applies the partial- and
empty-download rules. -/
def downloadGetStep (mimeGuess : String → Option String) (docsDir : List Char)
    (url : String) (attempt : Nat) (filename localPath : List Char)
    (g : GetResult) : StepOut :=
  match g with
  | .exn => .retryGuarded (2 * (attempt + 1)) filename localPath
  | .resp status payload =>
    if status ≠ 200 then
      if status = 404 then .done false "" ""
      else .retrySleep (2 * (attempt + 1)) filename localPath
    else
      let ct := normalizeContentType payload.contentType
      if occursIn "text/html".data ct ∧
         !(DOCUMENT_EXTENSIONS.any (fun e => occursIn e.data (toLowerL filename))) then
        .done false "" ""
      else
        let fl1 := applyContentDisposition docsDir filename localPath
          payload.contentDisposition
        let fl2 := applyExtensionFix mimeGuess docsDir url ct fl1.1 fl1.2
        match payload.stream with
        | .complete n =>
          if n = 0 then .retryGuarded (2 * (attempt + 1)) fl2.1 fl2.2
          else .done true (String.mk fl2.2) (derivedFileType fl2.1 ct)
        | .failedAfter n =>
          if 0 < n then .done true (String.mk fl2.2) (derivedFileType fl2.1 ct)
          else .retryGuarded (2 * (attempt + 1)) fl2.1 fl2.2

/-- The retry loop (`for attempt in range(MAX_RETRIES)`): the HEAD
probe aborts the whole download on any status `>= 400`; otherwise the
GET outcome decides.  `filename`/`localPath` thread through retries
because the source mutates them inside the loop body. -/
def downloadLoop (mimeGuess : String → Option String) (docsDir : List Char)
    (url : String) (net : Nat → Attempt) (filename localPath : List Char)
    (attempt : Nat) : Nat → DownloadResult
  | 0 => ⟨false, "", "", 0, 0, []⟩
  | fuel + 1 =>
    let a := net attempt
    let headAborts : Bool := match a.headStatus with
      | some s => decide (400 ≤ s)
      | none => false
    if headAborts then ⟨false, "", "", 1, 0, []⟩
    else
      match downloadGetStep mimeGuess docsDir url attempt filename localPath a.get with
      | .done ok p t => ⟨ok, p, t, 1, 1, []⟩
      | .retrySleep d f2 l2 =>
        let r := downloadLoop mimeGuess docsDir url net f2 l2 (attempt + 1) fuel
        ⟨r.success, r.path, r.fileType, r.headRequests + 1, r.getRequests + 1,
         d :: r.sleeps⟩
      | .retryGuarded d f2 l2 =>
        if attempt < MAX_RETRIES - 1 then
          let r := downloadLoop mimeGuess docsDir url net f2 l2 (attempt + 1) fuel
          ⟨r.success, r.path, r.fileType, r.headRequests + 1, r.getRequests + 1,
           d :: r.sleeps⟩
        else ⟨false, "", "", 1, 1, []⟩

/-- `download_document`: fragment-only URLs are rejected, then the
derived local path is checked on disk before any network activity,
and only then does the retry loop run. -/
def download_document (url docsDir : String) (fileExists : String → Bool)
    (mimeGuess : String → Option String) (net : Nat → Attempt) : DownloadResult :=
  if url.data.contains '#' ∧ beforeFirst '#' url.data = [] then
    ⟨false, "", "", 0, 0, []⟩
  else
    let filename := derivedFilename url
    let localPath := joinPath docsDir.data filename
    if fileExists (String.mk localPath) then
      ⟨true, String.mk localPath, extTypeOf filename, 0, 0, []⟩
    else
      downloadLoop mimeGuess docsDir.data url net filename localPath 0 MAX_RETRIES

/-! ## `extract_zip_file` (source lines 928-1050)

Modelled for archives that open successfully; per-entry extraction
success is the oracle `extractOk` (a missing extracted file is
skipped), and database inserts are modelled as committing.  The
markdown `content` column is presentation-only and omitted from the
record. -/

/-- One archive entry: its name inside the ZIP and its extracted
size in bytes. -/
structure ZipEntry where
  name : String
  size : Nat
  deriving Repr, DecidableEq

/-- The database row produced for one extracted file. -/
structure ExtractedRecord where
  link : String
  tags : List String
  parent : String
  localPath : String
  deriving Repr, DecidableEq

/-- The archive-level tag list (lines 944-951): path tags of the
archive's URL plus `arquivo_compactado` when absent. -/
def zipParentTags (parentUrl : String) : List String :=
  if "arquivo_compactado" ∈ extract_path_tags parentUrl then
    extract_path_tags parentUrl
  else extract_path_tags parentUrl ++ ["arquivo_compactado"]

/-- The per-archive extraction directory (lines 962-965): named from
the archive's own filename with `.zip` removed. -/
def zipSpecificDirOf (extractedDir zipPath : String) : List Char :=
  joinPath extractedDir.data (replaceAll (basenameL zipPath.data) ".zip".data [])

/-- The record built for one kept entry (lines 989-1033). -/
def zipEntryRecord (zipSpecificDir : List Char) (parentUrl zipUuid : String)
    (zipTags : List String) (e : ZipEntry) : ExtractedRecord :=
  { link := parentUrl ++ "#extracted/" ++ zipUuid ++ "/" ++
      String.mk (basenameL e.name.data)
    tags := zipTags ++ ["extraido_de_zip", get_file_type e.name]
    parent := parentUrl
    localPath := String.mk (joinPath zipSpecificDir (basenameL e.name.data)) }

/-- The per-entry loop body (lines 971-1036): directory entries,
entries whose extraction failed and zero-byte entries are skipped. -/
def zipEntryStep (zipSpecificDir : List Char) (parentUrl zipUuid : String)
    (zipTags : List String) (extractOk : ZipEntry → Bool) (e : ZipEntry) :
    Option ExtractedRecord :=
  if finishesWith e.name.data "/".data then none
  else if !(extractOk e) then none
  else if e.size = 0 then none
  else some (zipEntryRecord zipSpecificDir parentUrl zipUuid zipTags e)

/-- `extract_zip_file`: one record per kept entry, in archive order. -/
def extract_zip_file (entries : List ZipEntry)
    (zipPath extractedDir parentUrl zipUuid : String)
    (extractOk : ZipEntry → Bool) : List ExtractedRecord :=
  entries.filterMap
    (zipEntryStep (zipSpecificDirOf extractedDir zipPath) parentUrl zipUuid
      (zipParentTags parentUrl) extractOk)

/-! ## Helper lemmas -/

/-- Two prefixes of the same list are comparable. -/
theorem beginsWith_total :
    ∀ (l a b : List Char), beginsWith a l = true → beginsWith b l = true →
      beginsWith a b = true ∨ beginsWith b a = true := by
  intro l
  induction l with
  | nil =>
    intro a b ha _
    cases a with
    | nil => exact Or.inl rfl
    | cons x xs => exact absurd ha (by simp [beginsWith])
  | cons c cs ih =>
    intro a b ha hb
    cases a with
    | nil => exact Or.inl rfl
    | cons x xs =>
      cases b with
      | nil => exact Or.inr rfl
      | cons y ys =>
        simp only [beginsWith, Bool.and_eq_true, decide_eq_true_eq] at ha hb
        rcases ih xs ys ha.2 hb.2 with h | h
        · exact Or.inl (by simp [beginsWith, ha.1, hb.1, h])
        · exact Or.inr (by simp [beginsWith, ha.1, hb.1, h])

/-- No path can end both with a web-page extension and with a document
extension: the two extension lists are suffix-incompatible. -/
theorem webExt_excludes_docExt {path : List Char}
    (hweb : webExtHit path = true) : docExtHit path = false := by
  cases hdoc : docExtHit path with
  | false => rfl
  | true =>
    exfalso
    rw [webExtHit, List.any_eq_true] at hweb
    rw [docExtHit, List.any_eq_true] at hdoc
    obtain ⟨w, hwmem, hwsuf⟩ := hweb
    obtain ⟨d, hdmem, hdsuf⟩ := hdoc
    rw [finishesWith] at hwsuf hdsuf
    have hall : (WEB_PAGE_EXTENSIONS.all fun w => DOCUMENT_EXTENSIONS.all fun d =>
        !(beginsWith w.data.reverse d.data.reverse) &&
        !(beginsWith d.data.reverse w.data.reverse)) = true := by decide
    rw [List.all_eq_true] at hall
    have h2 := hall w hwmem
    rw [List.all_eq_true] at h2
    have h3 := h2 d hdmem
    rcases beginsWith_total path.reverse _ _ hwsuf hdsuf with h | h <;>
      simp [h] at h3

/-- A nonempty-prefix check refutes emptiness of the URL. -/
theorem url_ne_empty_of_scheme {url : String}
    (h : (beginsWith "http://".data url.data ||
          beginsWith "https://".data url.data) = true) : url ≠ "" := by
  intro he
  subst he
  exact absurd h (by decide)

/-! ## C4 -/

/-- C4: every http/https URL whose (lowercased) path ends with one of
the fixed document extensions is classified as a document by
`is_document_url`, regardless of any other path or query content. -/
theorem c4_extension_implies_document (url : String)
    (hscheme : (beginsWith "http://".data url.data ||
                beginsWith "https://".data url.data) = true)
    (hext : docExtHit (toLowerL (urlparse url.data).path) = true) :
    is_document_url url = true := by
  have hne := url_ne_empty_of_scheme hscheme
  simp [is_document_url, hne, hscheme, hext]

/-- C4 witness: `http://x.com/a/b.PDF?x=1` satisfies the hypotheses
and is classified as a document. -/
theorem c4_extension_implies_document_witness :
    docExtHit (toLowerL (urlparse "http://x.com/a/b.PDF?x=1".data).path) = true ∧
    is_document_url "http://x.com/a/b.PDF?x=1" = true :=
  ⟨by decide,
   c4_extension_implies_document "http://x.com/a/b.PDF?x=1" (by decide) (by decide)⟩

/-! ## C3 -/

/-- C3 counterexample: `http://x.com/docs/pdf/` is accepted by the
strict navigation gate (`/docs/` directory pattern plus the literal
`pdf` token) but rejected by the loose classifier, whose pattern list
lacks `/docs/`; so `is_definitely_document_url` does not imply
`is_document_url`. -/
theorem c3_counterexample :
    is_definitely_document_url "http://x.com/docs/pdf/" = true ∧
    is_document_url "http://x.com/docs/pdf/" = false := by decide

/-- C3 amended: on the shared first tier — http/https URLs whose
path ends with a known document extension — the strict and the loose
check agree and both return true. -/
theorem c3_extension_tier_agrees (url : String)
    (hscheme : (beginsWith "http://".data url.data ||
                beginsWith "https://".data url.data) = true)
    (hext : docExtHit (toLowerL (urlparse url.data).path) = true) :
    is_definitely_document_url url = true ∧ is_document_url url = true := by
  have hne := url_ne_empty_of_scheme hscheme
  constructor
  · simp [is_definitely_document_url, hne, hext]
  · simp [is_document_url, hne, hscheme, hext]

/-- C3 amended witness at `http://x.com/a.pdf`. -/
theorem c3_extension_tier_agrees_witness :
    docExtHit (toLowerL (urlparse "http://x.com/a.pdf".data).path) = true ∧
    (is_definitely_document_url "http://x.com/a.pdf" = true ∧
     is_document_url "http://x.com/a.pdf" = true) :=
  ⟨by decide, c3_extension_tier_agrees "http://x.com/a.pdf" (by decide) (by decide)⟩

/-! ## C2 -/

/-- C2 counterexample: `http://x.com/download/page.html` matches the
`/download/` directory pattern and ends with the web-page extension
`.html`, yet `is_document_url` classifies it as a document — the
keyword branch (`download` in the path) still fires, refuting the
claim that such URLs come out as "page". -/
theorem c2_counterexample :
    docPatternHit (toLowerL (urlparse "http://x.com/download/page.html".data).path) = true ∧
    webExtHit (toLowerL (urlparse "http://x.com/download/page.html".data).path) = true ∧
    is_document_url "http://x.com/download/page.html" = true := by decide

/-- C2 amended: for an http/https URL whose path matches a document
directory pattern but ends with a web-page extension, the
directory-pattern branch (and the extension branch) never fire:
classification is decided entirely by the download query keys and the
path keywords. -/
theorem c2_webext_gates_pattern_branch (url : String)
    (hscheme : (beginsWith "http://".data url.data ||
                beginsWith "https://".data url.data) = true)
    (_hpat : docPatternHit (toLowerL (urlparse url.data).path) = true)
    (hweb : webExtHit (toLowerL (urlparse url.data).path) = true) :
    is_document_url url =
      (queryKeyHit (toLowerL (urlparse url.data).query) ||
       keywordHit (toLowerL (toLowerL (urlparse url.data).path))) := by
  have hne := url_ne_empty_of_scheme hscheme
  have hext := webExt_excludes_docExt hweb
  rw [is_document_url]
  simp only [hne, if_false, hscheme, Bool.not_true, Bool.false_eq_true]
  cases hq : queryKeyHit (toLowerL (urlparse url.data).query) <;>
    cases hk : keywordHit (toLowerL (toLowerL (urlparse url.data).path)) <;>
      simp [hext, hweb, hq, hk]

/-- C2 amended witness: `/storage/page.html` (pattern hit, web
extension, no query key, no keyword) evaluates to "page". -/
theorem c2_webext_gates_pattern_branch_witness :
    docPatternHit (toLowerL (urlparse "http://x.com/storage/page.html".data).path) = true ∧
    webExtHit (toLowerL (urlparse "http://x.com/storage/page.html".data).path) = true ∧
    is_document_url "http://x.com/storage/page.html" =
      (queryKeyHit (toLowerL (urlparse "http://x.com/storage/page.html".data).query) ||
       keywordHit (toLowerL (toLowerL (urlparse "http://x.com/storage/page.html".data).path))) :=
  ⟨by decide, by decide,
   c2_webext_gates_pattern_branch "http://x.com/storage/page.html"
     (by decide) (by decide) (by decide)⟩

/-! ## C1 -/

/-- C1: without `force`, a URL already in the known-URL set is never
passed to the page fetcher — `should_process_url` returns `false` and
does not even queue it for document download; with `force`, the known-
URL set has no influence at all on the filter's behaviour. -/
theorem c1_dedup_filter :
    (∀ (url : String) (existingUrls probableDocUrls docUrls : List String)
       (skipBrowser headIsDoc : Bool),
       url ∈ existingUrls →
       should_process_url url false existingUrls probableDocUrls docUrls
         skipBrowser headIsDoc = (false, docUrls)) ∧
    (∀ (url : String) (e1 e2 probableDocUrls docUrls : List String)
       (skipBrowser headIsDoc : Bool),
       should_process_url url true e1 probableDocUrls docUrls skipBrowser headIsDoc =
       should_process_url url true e2 probableDocUrls docUrls skipBrowser headIsDoc) := by
  constructor
  · intro url ex prob docs sb hd hmem
    have hadd : addDocUrl url false ex docs = docs := by
      rw [addDocUrl, if_neg]
      rintro ⟨-, h2 | h2⟩
      · exact absurd h2 (by decide)
      · exact h2 hmem
    simp only [should_process_url, hadd]
    repeat' split
    any_goals rfl
    all_goals simp_all
  · intro url e1 e2 prob docs sb hd
    have hadd : ∀ (e d : List String), addDocUrl url true e d =
        if url ∉ d then d ++ [url] else d := by
      intro e d
      rw [addDocUrl]
      simp
    simp [should_process_url, hadd]

/-- C1 witness: a concrete known URL is filtered out without force and
the filter ignores the known-URL set under force. -/
theorem c1_dedup_filter_witness :
    ("http://x.com/page" ∈ (["http://x.com/page"] : List String)) ∧
    should_process_url "http://x.com/page" false ["http://x.com/page"] [] []
      false false = (false, []) ∧
    should_process_url "http://x.com/a" true ["http://x.com/a"] [] [] false false =
      should_process_url "http://x.com/a" true [] [] [] false false :=
  ⟨by decide,
   c1_dedup_filter.1 "http://x.com/page" ["http://x.com/page"] [] [] false false
     (by decide),
   c1_dedup_filter.2 "http://x.com/a" ["http://x.com/a"] [] [] [] false false⟩

/-! ## C8 -/

/-- C8: digit-bearing path segments merge into the preceding category
tag — `/noticias/2024/123` yields exactly `["noticias"]` — and a
digit-bearing segment with no preceding tag contributes only its
digit-stripped remainder, when nonempty. -/
theorem c8_tag_merging :
    extract_path_tags "https://www.example.com/noticias/2024/123" = ["noticias"] ∧
    ∀ part : List Char, hasDigitL part = true →
      tagStep [] part =
        (if stripEdges (part.filter (fun c => !(c.isDigit))) = [] then []
         else [stripEdges (part.filter (fun c => !(c.isDigit)))]) := by
  constructor
  · decide
  · intro part h
    simp [tagStep, h]

/-- C8 witness: the purely numeric lone segment `42` produces no tag. -/
theorem c8_tag_merging_witness :
    hasDigitL "42".data = true ∧ tagStep [] "42".data = [] :=
  ⟨by decide, (c8_tag_merging.2 "42".data (by decide)).trans (by decide)⟩

/-! ## C9 -/

/-- Characters surviving the three replacement passes of
`sanitize_filename` are never dots or filesystem-illegal. -/
theorem sanitize_mapped_chars_ok (l : List Char) :
    ∀ c ∈ ((l.map (fun c => if isIllegalChar c then '_' else c)).map
            (fun c => if c = '/' then '_' else c)).map
            (fun c => if c = '.' then '_' else c),
      c ≠ '.' ∧ isIllegalChar c = false := by
  intro c hc
  rw [List.mem_map] at hc
  obtain ⟨b, hb, hbc⟩ := hc
  rw [List.mem_map] at hb
  obtain ⟨a, ha, hab⟩ := hb
  rw [List.mem_map] at ha
  obtain ⟨x, _, hxa⟩ := ha
  subst hbc
  subst hab
  subst hxa
  split_ifs <;> simp_all [isIllegalChar]

/-- C9: `sanitize_filename` always returns at most 100 characters,
none of which is a dot or one of the filesystem-illegal characters
`\ / * ? : " < > |`. -/
theorem c9_sanitize_filename_safe (url : String) :
    (sanitize_filename url).length ≤ 100 ∧
    ∀ c ∈ (sanitize_filename url).data, c ≠ '.' ∧ isIllegalChar c = false := by
  constructor
  · show (sanitize_filename url).data.length ≤ 100
    simp only [sanitize_filename]
    split
    · simp [List.length_take]
    · next h => omega
  · intro c hc
    simp only [sanitize_filename] at hc
    split at hc
    · exact sanitize_mapped_chars_ok _ c (List.mem_of_mem_take hc)
    · exact sanitize_mapped_chars_ok _ c hc

/-- C9 witness at a concrete URL and character. -/
theorem c9_sanitize_filename_safe_witness :
    ('e' ∈ (sanitize_filename "https://www.example.com/a.pdf").data) ∧
    (sanitize_filename "https://www.example.com/a.pdf").length ≤ 100 ∧
    ('e' ≠ '.' ∧ isIllegalChar 'e' = false) :=
  ⟨by decide, (c9_sanitize_filename_safe "https://www.example.com/a.pdf").1,
   (c9_sanitize_filename_safe "https://www.example.com/a.pdf").2 'e' (by decide)⟩

/-! ## C10 -/

/-- `stripEdges` only removes characters. -/
theorem stripEdges_subset (l : List Char) : ∀ c ∈ stripEdges l, c ∈ l := by
  intro c hc
  rw [stripEdges, List.mem_reverse] at hc
  have h1 := (List.dropWhile_sublist _).subset hc
  rw [List.mem_reverse] at h1
  exact (List.dropWhile_sublist _).subset h1

/-- The tag-processing fold preserves digit-freeness of every tag. -/
theorem tagFold_digit_free :
    ∀ (parts acc : List (List Char)),
      (∀ l ∈ acc, ∀ c ∈ l, c.isDigit = false) →
      ∀ l ∈ parts.foldl tagStep acc, ∀ c ∈ l, c.isDigit = false := by
  intro parts
  induction parts with
  | nil => exact fun acc h => h
  | cons p ps ih =>
    intro acc hacc
    rw [List.foldl_cons]
    apply ih
    intro l hl c hc
    rw [tagStep] at hl
    split at hl
    · split at hl
      · exact hacc l hl c hc
      · split at hl
        · exact hacc l hl c hc
        · rw [List.mem_append] at hl
          rcases hl with hl | hl
          · exact hacc l hl c hc
          · rw [List.mem_singleton] at hl
            subst hl
            have hmem := stripEdges_subset _ c hc
            rw [List.mem_filter] at hmem
            simpa using hmem.2
    · next hnd =>
      rw [List.mem_append] at hl
      rcases hl with hl | hl
      · exact hacc l hl c hc
      · rw [List.mem_singleton] at hl
        subst hl
        rw [Bool.not_eq_true, hasDigitL, List.any_eq_false] at hnd
        simpa using hnd c hc

/-- C10: no tag returned by `extract_path_tags` contains a decimal
digit — digit-bearing segments are dropped or digit-stripped. -/
theorem c10_tags_digit_free (url : String) :
    ∀ t ∈ extract_path_tags url, ∀ c ∈ t.data, c.isDigit = false := by
  intro t ht c hc
  rw [extract_path_tags, List.mem_map] at ht
  obtain ⟨l, hl, hlt⟩ := ht
  subst hlt
  exact tagFold_digit_free _ [] (by simp) l hl c hc

/-- C10 witness at a concrete URL, tag and character. -/
theorem c10_tags_digit_free_witness :
    ("xyz" ∈ extract_path_tags "http://a.com/xyz") ∧
    ('x' ∈ "xyz".data) ∧ Char.isDigit 'x' = false :=
  ⟨by decide, by decide,
   c10_tags_digit_free "http://a.com/xyz" "xyz" (by decide) 'x' (by decide)⟩

/-! ## C6 -/

/-- Counting lemma: with every entry extracting successfully, the loop
keeps exactly the non-directory entries of nonzero size. -/
theorem zipStep_count (d : List Char) (pu zu : String) (tg : List String)
    (extractOk : ZipEntry → Bool) :
    ∀ entries : List ZipEntry, (∀ e ∈ entries, extractOk e = true) →
      (entries.filterMap (zipEntryStep d pu zu tg extractOk)).length =
      (entries.filter
        (fun e => !(finishesWith e.name.data "/".data) && e.size != 0)).length := by
  intro entries
  induction entries with
  | nil => intro _; rfl
  | cons e es ih =>
    intro h
    have he := h e (List.mem_cons_self e es)
    have hes : ∀ x ∈ es, extractOk x = true :=
      fun x hx => h x (List.mem_cons_of_mem e hx)
    by_cases h1 : finishesWith e.name.data "/".data = true
    · simp [zipEntryStep, h1, ih hes]
    · by_cases h2 : e.size = 0
      · simp [zipEntryStep, h1, h2, he, ih hes]
      · simp [zipEntryStep, h1, h2, he, ih hes]

/-- C6: for a well-formed archive (every entry extracts), there is
exactly one record per non-directory entry of nonzero size, and every
record carries the `extraido_de_zip` tag, the archive URL as parent,
and a virtual link of the form
`parent_url#extracted/<archive-id>/<filename>`. -/
theorem c6_zip_extraction (entries : List ZipEntry)
    (zipPath extractedDir parentUrl zipUuid : String)
    (extractOk : ZipEntry → Bool)
    (hok : ∀ e ∈ entries, extractOk e = true) :
    (extract_zip_file entries zipPath extractedDir parentUrl zipUuid
        extractOk).length =
      (entries.filter
        (fun e => !(finishesWith e.name.data "/".data) && e.size != 0)).length ∧
    ∀ r ∈ extract_zip_file entries zipPath extractedDir parentUrl zipUuid extractOk,
      "extraido_de_zip" ∈ r.tags ∧ r.parent = parentUrl ∧
      ∃ e ∈ entries,
        r.link = parentUrl ++ "#extracted/" ++ zipUuid ++ "/" ++
          String.mk (basenameL e.name.data) := by
  constructor
  · exact zipStep_count _ _ _ _ _ entries hok
  · intro r hr
    rw [extract_zip_file, List.mem_filterMap] at hr
    obtain ⟨e, he, hstep⟩ := hr
    rw [zipEntryStep] at hstep
    split at hstep
    · exact absurd hstep (by simp)
    split at hstep
    · exact absurd hstep (by simp)
    split at hstep
    · exact absurd hstep (by simp)
    rw [Option.some.injEq] at hstep
    subst hstep
    exact ⟨by simp [zipEntryRecord], rfl, e, he, rfl⟩

/-- The three-entry archive of the specification example. -/
def zentries3 : List ZipEntry := [⟨"a.txt", 0⟩, ⟨"b.pdf", 10⟩, ⟨"c.doc", 20⟩]

/-- C6 witness: a ZIP with files of sizes 0, 10 and 20 bytes yields
exactly two records, each tagged and parent-linked as claimed. -/
theorem c6_zip_extraction_witness :
    (∀ e ∈ zentries3, (fun _ => true : ZipEntry → Bool) e = true) ∧
    (extract_zip_file zentries3 "docs/arq.zip" "out" "http://x.com/arq.zip" "u1"
        (fun _ => true)).length = 2 ∧
    ∀ r ∈ extract_zip_file zentries3 "docs/arq.zip" "out" "http://x.com/arq.zip" "u1"
        (fun _ => true),
      "extraido_de_zip" ∈ r.tags ∧ r.parent = "http://x.com/arq.zip" :=
  ⟨by decide,
   (c6_zip_extraction zentries3 "docs/arq.zip" "out" "http://x.com/arq.zip" "u1"
      (fun _ => true) (by decide)).1.trans (by decide),
   fun r hr =>
     ⟨((c6_zip_extraction zentries3 "docs/arq.zip" "out" "http://x.com/arq.zip" "u1"
          (fun _ => true) (by decide)).2 r hr).1,
      ((c6_zip_extraction zentries3 "docs/arq.zip" "out" "http://x.com/arq.zip" "u1"
          (fun _ => true) (by decide)).2 r hr).2.1⟩⟩

/-! ## C7 -/

/-- C7: when the derived local path already exists on disk,
`download_document` succeeds with that path and the extension-derived
file type, issuing no HEAD probe, no GET and no backoff sleep. -/
theorem c7_existing_file_short_circuit (url docsDir : String)
    (fileExists : String → Bool) (mimeGuess : String → Option String)
    (net : Nat → Attempt)
    (hfrag : ¬(url.data.contains '#' = true ∧ beforeFirst '#' url.data = []))
    (hex : fileExists (derivedLocalPath url docsDir) = true) :
    download_document url docsDir fileExists mimeGuess net =
      ⟨true, derivedLocalPath url docsDir, extTypeOf (derivedFilename url),
       0, 0, []⟩ := by
  rw [download_document, if_neg hfrag]
  rw [derivedLocalPath] at hex
  simp [hex, derivedLocalPath]

/-- A network oracle that always raises; any contact would be visible
in the request counters. -/
def netIdle : Nat → Attempt := fun _ => ⟨none, .exn⟩

/-- C7 witness at a concrete URL with the file present. -/
theorem c7_existing_file_short_circuit_witness :
    (¬("http://x.com/a.pdf".data.contains '#' = true ∧
        beforeFirst '#' "http://x.com/a.pdf".data = [])) ∧
    ((fun _ => true : String → Bool) (derivedLocalPath "http://x.com/a.pdf" "docs")
      = true) ∧
    download_document "http://x.com/a.pdf" "docs" (fun _ => true) (fun _ => none)
        netIdle =
      ⟨true, derivedLocalPath "http://x.com/a.pdf" "docs",
       extTypeOf (derivedFilename "http://x.com/a.pdf"), 0, 0, []⟩ :=
  ⟨by decide, rfl,
   c7_existing_file_short_circuit "http://x.com/a.pdf" "docs" (fun _ => true)
     (fun _ => none) netIdle (by decide) rfl⟩

/-! ## C5 -/

/-- A network oracle whose first attempt's HEAD probe answers 500 and
whose later attempts would succeed outright. -/
def netHead500 : Nat → Attempt := fun k =>
  if k = 0 then ⟨some 500, .resp 200 ⟨"application/pdf", "", .complete 5⟩⟩
  else ⟨some 200, .resp 200 ⟨"application/pdf", "", .complete 5⟩⟩

/-- The same oracle with a passing first HEAD. -/
def netHeadOk : Nat → Attempt :=
  fun _ => ⟨some 200, .resp 200 ⟨"application/pdf", "", .complete 5⟩⟩

/-- C5 counterexample: a 500 — a non-2xx status that is not of the
"not found" class — on the first attempt's HEAD probe aborts the whole
download at once (one HEAD, no GET, no backoff sleep, `success=false`),
even though the identical remaining attempts would succeed; so such a
status is not treated as a retryable failure, refuting the claim. -/
theorem c5_counterexample :
    download_document "http://x.com/d/report.pdf" "docs" (fun _ => false)
      (fun _ => none) netHead500 = ⟨false, "", "", 1, 0, []⟩ ∧
    download_document "http://x.com/d/report.pdf" "docs" (fun _ => false)
      (fun _ => none) netHeadOk = ⟨true, "docs/report.pdf", "pdf", 1, 1, []⟩ := by
  decide

/-- C5 amended: (a) a 404 on the content GET aborts the download at
once — one GET, no sleep, no further attempt, `success=false`; (b) any
other non-200 GET status is retried after a `2 * attempt_number`
second backoff; (c) but the HEAD probe that precedes each GET aborts
the whole download immediately on *any* status at or above 400 —
including 5xx and non-404 4xx — so non-2xx statuses are retryable only
when they arrive on the GET. -/
theorem c5_retry_discipline :
    (∀ (mg : String → Option String) (dd : List Char) (url : String)
       (net : Nat → Attempt) (fn lp : List Char) (k f : Nat) (p : GetOk)
       (h : Option Nat),
       net k = ⟨h, .resp 404 p⟩ →
       (h = none ∨ ∃ s, h = some s ∧ s < 400) →
       downloadLoop mg dd url net fn lp k (f + 1) = ⟨false, "", "", 1, 1, []⟩) ∧
    (∀ (mg : String → Option String) (dd : List Char) (url : String)
       (net : Nat → Attempt) (fn lp : List Char) (k f : Nat) (p : GetOk)
       (h : Option Nat) (s : Nat),
       net k = ⟨h, .resp s p⟩ →
       (h = none ∨ ∃ t, h = some t ∧ t < 400) →
       s ≠ 200 → s ≠ 404 →
       downloadLoop mg dd url net fn lp k (f + 1) =
         ⟨(downloadLoop mg dd url net fn lp (k + 1) f).success,
          (downloadLoop mg dd url net fn lp (k + 1) f).path,
          (downloadLoop mg dd url net fn lp (k + 1) f).fileType,
          (downloadLoop mg dd url net fn lp (k + 1) f).headRequests + 1,
          (downloadLoop mg dd url net fn lp (k + 1) f).getRequests + 1,
          2 * (k + 1) :: (downloadLoop mg dd url net fn lp (k + 1) f).sleeps⟩) ∧
    (∀ (mg : String → Option String) (dd : List Char) (url : String)
       (net : Nat → Attempt) (fn lp : List Char) (k f : Nat) (s : Nat)
       (g : GetResult),
       net k = ⟨some s, g⟩ → 400 ≤ s →
       downloadLoop mg dd url net fn lp k (f + 1) = ⟨false, "", "", 1, 0, []⟩) := by
  refine ⟨?_, ?_, ?_⟩
  · intro mg dd url net fn lp k f p h hnet hh
    have hstep : downloadGetStep mg dd url k fn lp (.resp 404 p) =
        .done false "" "" := by simp [downloadGetStep]
    rcases hh with rfl | ⟨s, rfl, hs⟩
    · simp [downloadLoop, hnet, hstep]
    · have hd : decide (400 ≤ s) = false := by simp [Nat.not_le.mpr hs]
      simp [downloadLoop, hnet, hstep, hd]
  · intro mg dd url net fn lp k f p h s hnet hh h200 h404
    have hstep : downloadGetStep mg dd url k fn lp (.resp s p) =
        .retrySleep (2 * (k + 1)) fn lp := by simp [downloadGetStep, h200, h404]
    rcases hh with rfl | ⟨t, rfl, ht⟩
    · simp [downloadLoop, hnet, hstep]
    · have hd : decide (400 ≤ t) = false := by simp [Nat.not_le.mpr ht]
      simp [downloadLoop, hnet, hstep, hd]
  · intro mg dd url net fn lp k f s g hnet hs
    have hd : decide (400 ≤ s) = true := by simp [hs]
    simp [downloadLoop, hnet, hd]

/-- A network oracle answering 404 to the first GET (HEAD raising). -/
def netGet404 : Nat → Attempt := fun _ => ⟨none, .resp 404 ⟨"", "", .complete 0⟩⟩

/-- A network oracle answering 503 to the first GET (HEAD raising). -/
def netGet503 : Nat → Attempt := fun _ => ⟨none, .resp 503 ⟨"", "", .complete 0⟩⟩

/-- A network oracle whose HEAD probe answers 500. -/
def netHeadAbort : Nat → Attempt := fun _ => ⟨some 500, .exn⟩

/-- C5 amended witness: each of the three amended facts applied at a
concrete oracle. -/
theorem c5_retry_discipline_witness :
    (netGet404 0 = ⟨none, .resp 404 ⟨"", "", .complete 0⟩⟩ ∧
     downloadLoop (fun _ => none) "docs".data "http://x.com/a.pdf" netGet404
       "a.pdf".data "docs/a.pdf".data 0 3 = ⟨false, "", "", 1, 1, []⟩) ∧
    (netGet503 0 = ⟨none, .resp 503 ⟨"", "", .complete 0⟩⟩ ∧ (503 : Nat) ≠ 200 ∧
     (503 : Nat) ≠ 404 ∧
     downloadLoop (fun _ => none) "docs".data "http://x.com/a.pdf" netGet503
       "a.pdf".data "docs/a.pdf".data 0 3 =
       ⟨(downloadLoop (fun _ => none) "docs".data "http://x.com/a.pdf" netGet503
           "a.pdf".data "docs/a.pdf".data 1 2).success,
        (downloadLoop (fun _ => none) "docs".data "http://x.com/a.pdf" netGet503
           "a.pdf".data "docs/a.pdf".data 1 2).path,
        (downloadLoop (fun _ => none) "docs".data "http://x.com/a.pdf" netGet503
           "a.pdf".data "docs/a.pdf".data 1 2).fileType,
        (downloadLoop (fun _ => none) "docs".data "http://x.com/a.pdf" netGet503
           "a.pdf".data "docs/a.pdf".data 1 2).headRequests + 1,
        (downloadLoop (fun _ => none) "docs".data "http://x.com/a.pdf" netGet503
           "a.pdf".data "docs/a.pdf".data 1 2).getRequests + 1,
        2 * (0 + 1) :: (downloadLoop (fun _ => none) "docs".data
           "http://x.com/a.pdf" netGet503 "a.pdf".data "docs/a.pdf".data 1
           2).sleeps⟩) ∧
    (netHeadAbort 0 = ⟨some 500, .exn⟩ ∧ (400 : Nat) ≤ 500 ∧
     downloadLoop (fun _ => none) "docs".data "http://x.com/a.pdf" netHeadAbort
       "a.pdf".data "docs/a.pdf".data 0 3 = ⟨false, "", "", 1, 0, []⟩) :=
  ⟨⟨rfl, c5_retry_discipline.1 (fun _ => none) "docs".data "http://x.com/a.pdf"
      netGet404 "a.pdf".data "docs/a.pdf".data 0 2 ⟨"", "", .complete 0⟩ none rfl
      (Or.inl rfl)⟩,
   ⟨rfl, by decide, by decide,
    c5_retry_discipline.2.1 (fun _ => none) "docs".data "http://x.com/a.pdf"
      netGet503 "a.pdf".data "docs/a.pdf".data 0 2 ⟨"", "", .complete 0⟩ none 503
      rfl (Or.inl rfl) (by decide) (by decide)⟩,
   ⟨rfl, by decide,
    c5_retry_discipline.2.2 (fun _ => none) "docs".data "http://x.com/a.pdf"
      netHeadAbort "a.pdf".data "docs/a.pdf".data 0 2 500 .exn rfl (by decide)⟩⟩

end Crawler
